import Mathlib

/-!
Shallow embedding of the DNS-configuration core of the repository:
- `talpid-dbus/src/systemd_resolved.rs` (systemd-resolved IPC backend), and
- `talpid-core/src/dns/windows/mod.rs` (Windows registry backend).

External collaborators (D-Bus transport, registry/transaction primitive,
filesystem, process invocation, alias→LUID→GUID resolution) are modelled as
explicit oracle structures; everything this core computes is translated
directly from the Rust source.
-/

/-! ## IP address model (std::net::IpAddr) -/

/-- `std::net::Ipv4Addr`: four octets. -/
structure Ipv4Addr where
  o0 : Fin 256
  o1 : Fin 256
  o2 : Fin 256
  o3 : Fin 256
deriving DecidableEq, Repr

/-- `std::net::Ipv6Addr`: sixteen octets. -/
structure Ipv6Addr where
  b0 : Fin 256
  b1 : Fin 256
  b2 : Fin 256
  b3 : Fin 256
  b4 : Fin 256
  b5 : Fin 256
  b6 : Fin 256
  b7 : Fin 256
  b8 : Fin 256
  b9 : Fin 256
  b10 : Fin 256
  b11 : Fin 256
  b12 : Fin 256
  b13 : Fin 256
  b14 : Fin 256
  b15 : Fin 256
deriving DecidableEq, Repr

/-- `std::net::IpAddr`. -/
inductive IpAddr where
  | V4 (a : Ipv4Addr)
  | V6 (a : Ipv6Addr)
deriving DecidableEq, Repr

namespace Ipv6Addr

/-- Octet list of an IPv6 address (`Ipv6Addr::octets`). -/
def octets (a : Ipv6Addr) : List (Fin 256) :=
  [a.b0, a.b1, a.b2, a.b3, a.b4, a.b5, a.b6, a.b7,
   a.b8, a.b9, a.b10, a.b11, a.b12, a.b13, a.b14, a.b15]

/-- 16-bit segment list of an IPv6 address (`Ipv6Addr::segments`),
big-endian pairs of octets. -/
def segments (a : Ipv6Addr) : List Nat :=
  [a.b0.val * 256 + a.b1.val, a.b2.val * 256 + a.b3.val,
   a.b4.val * 256 + a.b5.val, a.b6.val * 256 + a.b7.val,
   a.b8.val * 256 + a.b9.val, a.b10.val * 256 + a.b11.val,
   a.b12.val * 256 + a.b13.val, a.b14.val * 256 + a.b15.val]

/-- Build an IPv6 address from eight 16-bit segments (big-endian). -/
def ofSegments (s0 s1 s2 s3 s4 s5 s6 s7 : Fin 65536) : Ipv6Addr where
  b0 := ⟨s0.val / 256, by omega⟩
  b1 := ⟨s0.val % 256, by omega⟩
  b2 := ⟨s1.val / 256, by omega⟩
  b3 := ⟨s1.val % 256, by omega⟩
  b4 := ⟨s2.val / 256, by omega⟩
  b5 := ⟨s2.val % 256, by omega⟩
  b6 := ⟨s3.val / 256, by omega⟩
  b7 := ⟨s3.val % 256, by omega⟩
  b8 := ⟨s4.val / 256, by omega⟩
  b9 := ⟨s4.val % 256, by omega⟩
  b10 := ⟨s5.val / 256, by omega⟩
  b11 := ⟨s5.val % 256, by omega⟩
  b12 := ⟨s6.val / 256, by omega⟩
  b13 := ⟨s6.val % 256, by omega⟩
  b14 := ⟨s7.val / 256, by omega⟩
  b15 := ⟨s7.val % 256, by omega⟩

end Ipv6Addr

namespace IpAddr

/-- `IpAddr::is_ipv4`. -/
def is_ipv4 : IpAddr → Bool
  | .V4 _ => true
  | .V6 _ => false

/-- `IpAddr::is_ipv6`. -/
def is_ipv6 : IpAddr → Bool
  | .V4 _ => false
  | .V6 _ => true

/-- `IpAddr::is_loopback`: for v4, first octet is 127; for v6, the address
is exactly `::1`. -/
def is_loopback : IpAddr → Bool
  | .V4 a => a.o0.val == 127
  | .V6 a => a.octets == [0, 0, 0, 0, 0, 0, 0, 0, 0, 0, 0, 0, 0, 0, 0, 1]

/-- Numeric key realizing the derived `Ord` on `IpAddr`: any v4 address is
below any v6 address (variant order), and within a variant the octets are
compared lexicographically, i.e. as a big-endian number. -/
def key : IpAddr → Nat
  | .V4 a => ((a.o0.val * 256 + a.o1.val) * 256 + a.o2.val) * 256 + a.o3.val
  | .V6 a => 2 ^ 32 + a.octets.foldl (fun acc b => acc * 256 + b.val) 0

/-- The boolean `≤` of the derived `Ord` on `IpAddr`. -/
def ipLe (a b : IpAddr) : Bool := a.key ≤ b.key

end IpAddr

/-- `Vec::sort` on a vector of IP addresses: a stable sort by the derived
`Ord`. -/
def sortIps (l : List IpAddr) : List IpAddr := l.mergeSort IpAddr.ipLe

/-! ## IP address textual rendering (`Display`), used by the registry
backend through `addr.to_string()`. -/

/-- Decimal rendering of an IPv4 address: `a.b.c.d`. -/
def Ipv4Addr.display (a : Ipv4Addr) : String :=
  Nat.repr a.o0.val ++ "." ++ Nat.repr a.o1.val ++ "." ++
  Nat.repr a.o2.val ++ "." ++ Nat.repr a.o3.val

/-- Lowercase hex rendering of a 16-bit segment, no leading zeros. -/
def hexSeg (n : Nat) : String := String.mk (Nat.toDigits 16 n)

/-- Longest run of zero segments: returns (start, length) of the leftmost
strictly-longest run, the scan used by the `Display` impl of `Ipv6Addr`. -/
def zeroSpan (segs : List Nat) : Nat × Nat :=
  let step := fun (st : (Nat × Nat) × (Nat × Nat) × Nat) (seg : Nat) =>
    let longest := st.1
    let current := st.2.1
    let i := st.2.2
    if seg == 0 then
      let current := if current.2 == 0 then (i, 1) else (current.1, current.2 + 1)
      let longest := if current.2 > longest.2 then current else longest
      (longest, current, i + 1)
    else
      (longest, (0, 0), i + 1)
  (segs.foldl step ((0, 0), (0, 0), 0)).1

/-- Hex segments joined by a colon (`fmt_subslice`). -/
def fmtSegs (segs : List Nat) : String :=
  String.intercalate ":" (segs.map hexSeg)

/-- `Display` for `Ipv6Addr` (era of the source: special cases for `::`,
`::1`, ipv4-compatible and ipv4-mapped addresses, else longest-zero-run
compression). -/
def Ipv6Addr.display (a : Ipv6Addr) : String :=
  let segs := a.segments
  let v4tail := Ipv4Addr.display ⟨a.b12, a.b13, a.b14, a.b15⟩
  if segs == [0, 0, 0, 0, 0, 0, 0, 0] then "::"
  else if a.octets == [0, 0, 0, 0, 0, 0, 0, 0, 0, 0, 0, 0, 0, 0, 0, 1] then "::1"
  else if segs.take 5 == [0, 0, 0, 0, 0] && segs.get! 5 == 0 then
    "::" ++ v4tail
  else if segs.take 5 == [0, 0, 0, 0, 0] && segs.get! 5 == 0xffff then
    "::ffff:" ++ v4tail
  else
    let span := zeroSpan segs
    if span.2 > 1 then
      fmtSegs (segs.take span.1) ++ "::" ++ fmtSegs (segs.drop (span.1 + span.2))
    else
      fmtSegs segs

/-- `Display` for `IpAddr` (`to_string`). -/
def IpAddr.display : IpAddr → String
  | .V4 a => a.display
  | .V6 a => a.display

/-! ## Byte encoding of IP addresses (systemd_resolved.rs, bottom of file) -/

/-- `libc::AF_INET`. -/
def AF_INET : Int := 2

/-- `libc::AF_INET6`. -/
def AF_INET6 : Int := 10

/-- `ip_version`: the address-family tag of an address. -/
def ip_version : IpAddr → Int
  | .V4 _ => AF_INET
  | .V6 _ => AF_INET6

/-- `ip_to_bytes`: the raw octets of the address. -/
def ip_to_bytes : IpAddr → List (Fin 256)
  | .V4 a => [a.o0, a.o1, a.o2, a.o3]
  | .V6 a => a.octets

/-- `ip_from_bytes`: rebuild an address from raw octets; only lengths 4 and
16 are accepted. -/
def ip_from_bytes : List (Fin 256) → Option IpAddr
  | [a, b, c, d] => some (.V4 ⟨a, b, c, d⟩)
  | [a0, a1, a2, a3, a4, a5, a6, a7, a8, a9, a10, a11, a12, a13, a14, a15] =>
      some (.V6 ⟨a0, a1, a2, a3, a4, a5, a6, a7, a8, a9, a10, a11, a12, a13, a14, a15⟩)
  | _ => none

/-! ## Textual IP address parsing (`str::parse::<IpAddr>`, std::net parser)

Used by the preflight static-stub check. The embedding follows the std
parser: reader functions take the remaining input and return the parsed
value with the rest of the input, `none` meaning the reader failed (and, as
the std parser wraps every reader in `read_atomically`, consumed nothing). -/

/-- Hexadecimal digit test (`char::to_digit(16)` succeeds). -/
def isHexDigitChar (c : Char) : Bool :=
  c.isDigit || ('a' ≤ c && c ≤ 'f') || ('A' ≤ c && c ≤ 'F')

/-- Value of a hexadecimal digit. -/
def hexVal (c : Char) : Nat :=
  if c.isDigit then c.toNat - 48
  else if 'a' ≤ c && c ≤ 'f' then c.toNat - 97 + 10
  else c.toNat - 65 + 10

/-- Split off the maximal leading run of digit characters. -/
def takeDigitRun (isD : Char → Bool) : List Char → List Char × List Char
  | [] => ([], [])
  | c :: rest =>
      if isD c then
        let (run, r) := takeDigitRun isD rest
        (c :: run, r)
      else ([], c :: rest)

/-- `read_given_char`. -/
def readGiven (c : Char) : List Char → Option (List Char)
  | [] => none
  | x :: rest => if x == c then some rest else none

/-- `read_number(10, Some(3), allow_zero_prefix = false)` into a `u8`:
a nonempty decimal digit run, no leading zero unless the single digit 0,
value below 256. -/
def read_u8_group (s : List Char) : Option (Fin 256 × List Char) :=
  let (run, rest) := takeDigitRun Char.isDigit s
  if run.isEmpty then none
  else if run.length > 1 && run.head? == some '0' then none
  else
    let v := run.foldl (fun a c => a * 10 + (c.toNat - 48)) 0
    if h : v < 256 then some (⟨v, h⟩, rest) else none

/-- `read_number(16, Some(4), allow_zero_prefix = true)` into a `u16`:
one to four hexadecimal digits. -/
def read_u16_hex_group (s : List Char) : Option (Fin 65536 × List Char) :=
  let (run, rest) := takeDigitRun isHexDigitChar s
  if run.isEmpty then none
  else if run.length > 4 then none
  else
    let v := run.foldl (fun a c => a * 16 + hexVal c) 0
    if h : v < 65536 then some (⟨v, h⟩, rest) else none

/-- `read_separator(c, i, inner)`: for every index after the first, the
separator must precede the item. -/
def readSep (c : Char) (i : Nat) (s : List Char) : Option (List Char) :=
  if i == 0 then some s else readGiven c s

/-- `read_ipv4_addr`: four dot-separated `u8` groups. -/
def read_ipv4 (s : List Char) : Option (Ipv4Addr × List Char) := do
  let (g0, s) ← read_u8_group s
  let s ← readGiven '.' s
  let (g1, s) ← read_u8_group s
  let s ← readGiven '.' s
  let (g2, s) ← read_u8_group s
  let s ← readGiven '.' s
  let (g3, s) ← read_u8_group s
  some (⟨g0, g1, g2, g3⟩, s)

/-- High 16-bit group of an embedded IPv4 address. -/
def v4hi (a : Ipv4Addr) : Fin 65536 := ⟨a.o0.val * 256 + a.o1.val, by omega⟩

/-- Low 16-bit group of an embedded IPv4 address. -/
def v4lo (a : Ipv4Addr) : Fin 65536 := ⟨a.o2.val * 256 + a.o3.val, by omega⟩

/-- The loop body of `read_groups`: reads up to `fuel` more colon-separated
16-bit groups (`i` is the current group index, `limit` the total slot
count), allowing a trailing embedded IPv4 address when at least two slots
remain. Returns the groups read, the remaining input, and whether an
embedded IPv4 address was read. -/
def readGroupsGo (limit : Nat) : Nat → Nat → List Char → List (Fin 65536) →
    List (Fin 65536) × List Char × Bool
  | _, 0, s, acc => (acc.reverse, s, false)
  | i, fuel + 1, s, acc =>
    let tryV4 : Option (Ipv4Addr × List Char) := do
      let s1 ← readSep ':' i s
      read_ipv4 s1
    match (if i + 1 < limit then tryV4 else none) with
    | some (v4, rest) => (acc.reverse ++ [v4hi v4, v4lo v4], rest, true)
    | none =>
      match (do
          let s1 ← readSep ':' i s
          read_u16_hex_group s1) with
      | some (g, rest) => readGroupsGo limit (i + 1) fuel rest (g :: acc)
      | none => (acc.reverse, s, false)

/-- Assemble an IPv6 address from exactly eight segments. -/
def segsToV6 : List (Fin 65536) → Option Ipv6Addr
  | [s0, s1, s2, s3, s4, s5, s6, s7] =>
      some (Ipv6Addr.ofSegments s0 s1 s2 s3 s4 s5 s6 s7)
  | _ => none

/-- `read_ipv6_addr`: a head group sequence, then optionally `::` and a
tail group sequence; the `::` stands for at least one zero group, and an
embedded IPv4 address may not appear before the `::`. -/
def read_ipv6 (s : List Char) : Option (Ipv6Addr × List Char) :=
  let (head, s1, headV4) := readGroupsGo 8 0 8 s []
  if head.length == 8 then
    (segsToV6 head).map fun a => (a, s1)
  else if headV4 then none
  else do
    let s2 ← readGiven ':' s1
    let s3 ← readGiven ':' s2
    let limit := 8 - (head.length + 1)
    let (tail, s4, _) := readGroupsGo limit 0 limit s3 []
    let segs := head ++ List.replicate (8 - (head.length + tail.length)) (0 : Fin 65536) ++ tail
    let a ← segsToV6 segs
    some (a, s4)

/-- `read_ip_addr`: IPv4 first, IPv6 second. -/
def read_ip (s : List Char) : Option (IpAddr × List Char) :=
  match read_ipv4 s with
  | some (a, rest) => some (.V4 a, rest)
  | none =>
    match read_ipv6 s with
    | some (a, rest) => some (.V6 a, rest)
    | none => none

/-- `str::parse::<IpAddr>`: the whole input must be consumed. -/
def parse_ip_addr (str : String) : Option IpAddr :=
  match read_ip str.data with
  | some (a, []) => some a
  | _ => none

/-! ## Character-list embeddings of the Rust string operations used here

The preflight manipulates file contents with `str::trim` and `str::split`.
These are embedded structurally over the character list (covering the ASCII
whitespace characters), so that every check evaluates. -/

deriving instance DecidableEq for Except

/-- Rust `str::trim`: remove leading and trailing whitespace. -/
def rustTrim (s : List Char) : List Char :=
  ((s.dropWhile Char.isWhitespace).reverse.dropWhile Char.isWhitespace).reverse

/-- Rust `str::split` with a character-class pattern: the pieces between
matching characters, empty pieces preserved (splitting the empty input
yields one empty piece, as in Rust). -/
def splitCharsBy (p : Char → Bool) : List Char → List (List Char)
  | [] => [[]]
  | c :: rest =>
    match splitCharsBy p rest with
    | [] => [[]]
    | t :: ts => if p c then [] :: t :: ts else (c :: t) :: ts

/-! ## systemd-resolved backend (talpid-dbus/src/systemd_resolved.rs) -/

namespace Resolved

/-- A D-Bus transport error (`dbus::Error`): an optional error name and a
message. -/
structure DbusError where
  name : Option String
  message : String
deriving DecidableEq, Repr

/-- `io::ErrorKind`, restricted to the kinds this module distinguishes. -/
inductive IoErrorKind where
  | notFound
  | invalidInput
  | other
deriving DecidableEq, Repr

/-- A `std::io::Error`, reduced to its kind. -/
structure IoError where
  kind : IoErrorKind
deriving DecidableEq, Repr

/-- The module's `Error` enum. -/
inductive Error where
  | ConnectDBus (e : DbusError)
  | ReadResolvConfError (e : IoError)
  | ResolvConfDiffers
  | NotSymlinkedToResolvConf
  | StaticStubNotPointingToLocalhost
  | NoSystemdResolved (e : DbusError)
  | GetLinkError (e : Error)
  | SetDomainsError (e : DbusError)
  | RevertDnsError (s : String) (e : DbusError)
  | DBusRpcError (e : DbusError)
  | DnsUpdateMatchError (e : DbusError)
  | DnsUpdateRemoveMatchError (e : DbusError)
deriving DecidableEq, Repr

/-- `DnsState`: the state captured by a successful `set_dns`. -/
structure DnsState where
  interface_path : String
  interface_index : Nat
  set_servers : List IpAddr
deriving DecidableEq, Repr

/-- `DnsServer`: one decoded entry of a DNS change notification. -/
structure DnsServer where
  iface_index : Int
  address_family : Int
  address : IpAddr
deriving DecidableEq, Repr

/-- The D-Bus transport and systemd-resolved daemon, as an oracle: each
method call of this module is a function from its (marshalled) arguments to
the reply the daemon would give. -/
structure Bus where
  get_link : Int → Except DbusError String
  set_dns_rpc : String → List (Int × List (Fin 256)) → Except DbusError Unit
  set_domains_rpc : String → List (String × Bool) → Except DbusError Unit
  revert_rpc : String → Except DbusError Unit

/-- `u32 as i32`: two's-complement reinterpretation of the interface
index. -/
def u32_as_i32 (n : Nat) : Int :=
  if n % 2 ^ 32 < 2 ^ 31 then (n % 2 ^ 32 : Int) else (n % 2 ^ 32 : Int) - 2 ^ 32

/-- `fetch_link`: the manager's GetLink call, any failure wrapped as
`DBusRpcError`. -/
def fetch_link (bus : Bus) (interface_index : Nat) : Except Error String :=
  match bus.get_link (u32_as_i32 interface_index) with
  | .ok path => .ok path
  | .error e => .error (.DBusRpcError e)

/-- The payload of the SetDNS call: each server, in original order, as its
address-family tag and raw octets. -/
def link_dns_payload (servers : List IpAddr) : List (Int × List (Fin 256)) :=
  servers.map fun addr => (ip_version addr, ip_to_bytes addr)

/-- `set_link_dns`: SetDNS with the encoded server list (failure is
`DBusRpcError`), then SetDomains with the root domain as catch-all routing
domain (failure is `SetDomainsError`). -/
def set_link_dns (bus : Bus) (link_object_path : String) (servers : List IpAddr) :
    Except Error Unit :=
  match bus.set_dns_rpc link_object_path (link_dns_payload servers) with
  | .error e => .error (.DBusRpcError e)
  | .ok () =>
    match bus.set_domains_rpc link_object_path [(".", true)] with
    | .error e => .error (.SetDomainsError e)
    | .ok () => .ok ()

/-- `set_dns`: look up the link (failure wrapped as `GetLinkError`), sort a
copy of the servers for the retained state, push the original list to the
link, and return the captured `DnsState`. -/
def set_dns (bus : Bus) (interface_index : Nat) (servers : List IpAddr) :
    Except Error DnsState :=
  match fetch_link bus interface_index with
  | .error e => .error (.GetLinkError e)
  | .ok link_object_path =>
    match set_link_dns bus link_object_path servers with
    | .error e => .error e
    | .ok () => .ok ⟨link_object_path, interface_index, sortIps servers⟩

/-- The error name the daemon reports when the object is gone. -/
def unknownObjectName : String := "org.freedesktop.DBus.Error.UnknownObject"

/-- `revert_link`: Revert on the stored link path; an UnknownObject failure
is success, any other failure is returned unchanged as the raw transport
error. -/
def revert_link (bus : Bus) (dns_state : DnsState) : Except DbusError Unit :=
  match bus.revert_rpc dns_state.interface_path with
  | .error e =>
      if e.name == some unknownObjectName then .ok () else .error e
  | .ok () => .ok ()

/-- One well-typed entry of a change-notification batch, before address
decoding: the interface index, the address family, and the raw address
bytes. -/
structure RawEntry where
  iface_index : Int
  address_family : Int
  address_bytes : List (Fin 256)
deriving DecidableEq, Repr

/-- `DnsServer::from_refarg`: decode one entry; fails iff the raw address
bytes have a length other than 4 or 16. -/
def DnsServer.from_refarg (e : RawEntry) : Option DnsServer :=
  (ip_from_bytes e.address_bytes).map fun address =>
    ⟨e.iface_index, e.address_family, address⟩

/-- `DnsServer::server_list_from_refarg`: decode a batch, dropping entries
that fail to decode. -/
def DnsServer.server_list_from_refarg (entries : List RawEntry) : List DnsServer :=
  entries.filterMap DnsServer.from_refarg

/-! ### Preflight resolv.conf check -/

/-- The filesystem, as an oracle for the three operations the preflight
uses. Paths are strings. -/
structure FileSys where
  read_link : String → Except IoError String
  read_to_string : String → Except IoError String
  canonicalize : String → Except IoError String

/-- `RESOLVED_STUB_PATHS`. -/
def RESOLVED_STUB_PATHS : List String :=
  ["/run/systemd/resolve/stub-resolv.conf",
   "/run/systemd/resolve/resolv.conf",
   "/var/run/systemd/resolve/stub-resolv.conf",
   "/var/run/systemd/resolve/resolv.conf"]

/-- `RESOLV_CONF_PATH`. -/
def RESOLV_CONF_PATH : String := "/etc/resolv.conf"

/-- `STATIC_STUB_PATH`. -/
def STATIC_STUB_PATH : String := "/usr/lib/systemd/resolv.conf"

/-- `Path::is_relative` on unix: the path does not start with a slash. -/
def path_is_relative (p : String) : Bool := !(p.data.head? == some '/')

/-- `path_is_resolvconf_stub`: a relative link target is resolved against
`/etc/` and canonicalized before membership in the stub path list is
checked; an absolute target is compared directly. -/
def path_is_resolvconf_stub (fs : FileSys) (link_path : String) : Bool :=
  if path_is_relative link_path then
    match fs.canonicalize ("/etc/" ++ link_path) with
    | .ok link_destination => RESOLVED_STUB_PATHS.contains link_destination
    | .error _ => false
  else
    RESOLVED_STUB_PATHS.contains link_path

/-- The per-token test of the static-stub check:
`str::parse::<IpAddr>(part).map(|addr| addr.is_loopback()).unwrap_or(false)`. -/
def token_is_loopback (part : List Char) : Bool :=
  ((parse_ip_addr (String.mk part)).map IpAddr.is_loopback).getD false

/-- `resolv_conf_is_static_stub`: when the link target is the static stub
path, the static file must contain, among the tokens of its trimmed content
split at each space character, one that parses as a loopback address;
otherwise the file was meddled with and the error is raised. A target other
than the static stub path yields `false`. -/
def resolv_conf_is_static_stub (fs : FileSys) (link_path : String) :
    Except Error Bool :=
  if link_path == STATIC_STUB_PATH then
    let points_to_localhost :=
      match fs.read_to_string link_path with
      | .ok contents =>
          ((splitCharsBy (fun c => c == ' ') (rustTrim contents.data)).map
            token_is_loopback).any id
      | .error _ => false
    if points_to_localhost then .ok true
    else .error .StaticStubNotPointingToLocalhost
  else
    .ok false

/-- `ensure_resolvconf_contents`: byte-for-byte comparison of
`/etc/resolv.conf` against each readable stub candidate. -/
def ensure_resolvconf_contents (fs : FileSys) : Except Error Unit :=
  match fs.read_to_string RESOLV_CONF_PATH with
  | .error e => .error (.ReadResolvConfError e)
  | .ok resolv_conf =>
    if RESOLVED_STUB_PATHS.any fun path =>
        match fs.read_to_string path with
        | .ok link_contents => link_contents == resolv_conf
        | .error _ => false
    then .ok ()
    else .error .ResolvConfDiffers

/-- `ensure_resolv_conf_is_resolved_symlink`: the preflight chain. The
symlink target is accepted if it is a stub path, else if the static-stub
check accepts (its error propagating), else if the contents match a stub;
a non-symlink falls back to the content comparison; any other read-link
failure is `NotSymlinkedToResolvConf`. -/
def ensure_resolv_conf_is_resolved_symlink (fs : FileSys) : Except Error Unit :=
  match fs.read_link RESOLV_CONF_PATH with
  | .ok link_target =>
    if path_is_resolvconf_stub fs link_target then .ok ()
    else
      match resolv_conf_is_static_stub fs link_target with
      | .error e => .error e
      | .ok true => .ok ()
      | .ok false =>
        if (ensure_resolvconf_contents fs).isOk then .ok ()
        else .error .NotSymlinkedToResolvConf
  | .error err =>
    if err.kind == .invalidInput then ensure_resolvconf_contents fs
    else .error .NotSymlinkedToResolvConf

end Resolved

/-! ## Windows registry backend (talpid-core/src/dns/windows/mod.rs) -/

namespace WinDns

/-- `io::ErrorKind`, restricted to what this module distinguishes. -/
inductive IoErrorKind where
  | notFound
  | other
deriving DecidableEq, Repr

/-- A `std::io::Error`, reduced to its kind. -/
structure IoError where
  kind : IoErrorKind
deriving DecidableEq, Repr

/-- The module's `Error` enum. -/
inductive Error where
  | InterfaceLuidError (e : IoError)
  | InterfaceGuidError (e : IoError)
  | ExecuteIpconfigError (e : IoError)
  | FlushResolverCacheError
  | SetResolversError (e : IoError)
  | SystemDirError (e : IoError)
deriving DecidableEq, Repr

/-- A registry value: string (REG_SZ) or dword. -/
inductive RegValue where
  | str (s : String)
  | dword (n : Nat)
deriving DecidableEq, Repr

/-- One registry key: its named values. -/
structure RegKeyState where
  values : List (String × RegValue)
deriving DecidableEq, Repr

/-- The registry, as an association list from key path to key state; a
missing path means the key does not exist. The transaction primitive is
the excluded ACID store: `set_dns` applies its inner update to a copy and
installs it only on commit. -/
def Registry := List (String × RegKeyState)

instance : DecidableEq Registry := inferInstanceAs (DecidableEq (List (String × RegKeyState)))

/-- Look up a key by path. -/
def regLookup (reg : Registry) (path : String) : Option RegKeyState :=
  (reg.find? fun kv => kv.1 == path).map Prod.snd

/-- Replace (or insert) the key at a path. -/
def regSet (reg : Registry) (path : String) (key : RegKeyState) : Registry :=
  match reg with
  | [] => [(path, key)]
  | kv :: rest => if kv.1 == path then (path, key) :: rest else kv :: regSet rest path key

/-- Look up a named value on a key. -/
def keyValue (key : RegKeyState) (name : String) : Option RegValue :=
  (key.values.find? fun v => v.1 == name).map Prod.snd

/-- `RegKey::set_value`. -/
def keySetValue (key : RegKeyState) (name : String) (v : RegValue) : RegKeyState :=
  ⟨(name, v) :: key.values.filter fun kv => !(kv.1 == name)⟩

/-- `RegKey::delete_value`; returns whether the value existed. -/
def keyDelValue (key : RegKeyState) (name : String) : RegKeyState :=
  ⟨key.values.filter fun kv => !(kv.1 == name)⟩

/-- The named value stored at a path, if the key and the value exist. -/
def regValue (reg : Registry) (path name : String) : Option RegValue :=
  (regLookup reg path).bind fun key => keyValue key name

/-- The interface-specific configuration key path for a service namespace. -/
def reg_path (service guid : String) : String :=
  "SYSTEM\\CurrentControlSet\\Services\\" ++ service ++
    "\\Parameters\\Interfaces\\" ++ guid

/-- External collaborators of the backend: alias resolution, transaction
plumbing and the cache-flush helper process. -/
structure Env where
  luid_from_alias : String → Except IoError Nat
  guid_from_luid : Nat → Except IoError String
  txn_new : Except IoError Unit
  commit : Except IoError Unit
  rollback : Except IoError Unit
  get_system_dir : Except IoError Unit
  ipconfig_status : Except IoError Int

/-- `config_interface`: open the interface key of one service namespace
(a missing key with no nameservers to write is success, with nameservers a
hard failure); write the comma-joined nameserver list, or delete the value
when the list is empty (a missing value on delete is success); then the
best-effort `EnableMulticast` write. -/
def config_interface (reg : Registry) (guid service : String)
    (nameservers : List IpAddr) : Except IoError Registry :=
  let nameservers := nameservers.map IpAddr.display
  let path := reg_path service guid
  match regLookup reg path with
  | none =>
      if nameservers.isEmpty then .ok reg
      else .error ⟨.notFound⟩
  | some adapter_key =>
    let adapter_key :=
      if !nameservers.isEmpty then
        keySetValue adapter_key "NameServer" (.str (String.intercalate "," nameservers))
      else
        keyDelValue adapter_key "NameServer"
    let adapter_key := keySetValue adapter_key "EnableMulticast" (.dword 0)
    .ok (regSet reg path adapter_key)

/-- `set_dns_inner`: configure the IPv4 namespace with the IPv4 partition,
then the IPv6 namespace with the IPv6 partition. -/
def set_dns_inner (reg : Registry) (guid : String) (servers : List IpAddr) :
    Except IoError Registry :=
  match config_interface reg guid "Tcpip" (servers.filter IpAddr.is_ipv4) with
  | .error e => .error e
  | .ok reg1 =>
    match config_interface reg1 guid "Tcpip6" (servers.filter IpAddr.is_ipv6) with
    | .error e => .error e
    | .ok reg2 => .ok reg2

/-- `set_dns`: run the inner update in a transaction; commit on success,
roll back on failure (a rollback error replaces the inner error). Any
failure leaves the real registry unchanged and is `SetResolversError`. -/
def set_dns (env : Env) (reg : Registry) (guid : String) (servers : List IpAddr) :
    Except Error Registry :=
  match env.txn_new with
  | .error e => .error (.SetResolversError e)
  | .ok () =>
    match set_dns_inner reg guid servers with
    | .ok reg2 =>
      match env.commit with
      | .ok () => .ok reg2
      | .error e => .error (.SetResolversError e)
    | .error e =>
      match env.rollback with
      | .ok () => .error (.SetResolversError e)
      | .error e2 => .error (.SetResolversError e2)

/-- `flush_dns_cache`: locate the system directory, run the flush helper;
only invocation failures are errors — the exit status is not inspected. -/
def flush_dns_cache (env : Env) : Except Error Unit :=
  match env.get_system_dir with
  | .error e => .error (.SystemDirError e)
  | .ok () =>
    match env.ipconfig_status with
    | .error e => .error (.ExecuteIpconfigError e)
    | .ok _status => .ok ()

/-- `DnsMonitor`: tracks at most the one currently configured interface. -/
structure DnsMonitor where
  current_guid : Option String
deriving DecidableEq, Repr

/-- `DnsMonitor::new`. -/
def DnsMonitor.new : DnsMonitor := ⟨none⟩

/-- `DnsMonitor::set`: resolve the alias to a GUID, apply the registry
update, record the GUID as current, then flush the resolver cache. The
returned triple is the monitor state, the registry state and the call's
result. -/
def DnsMonitor.set (env : Env) (m : DnsMonitor) (reg : Registry)
    (interface : String) (servers : List IpAddr) :
    DnsMonitor × Registry × Except Error Unit :=
  match env.luid_from_alias interface with
  | .error e => (m, reg, .error (.InterfaceLuidError e))
  | .ok luid =>
    match env.guid_from_luid luid with
    | .error e => (m, reg, .error (.InterfaceGuidError e))
    | .ok guid =>
      match set_dns env reg guid servers with
      | .error e => (m, reg, .error e)
      | .ok reg2 =>
        let m := { current_guid := some guid }
        match flush_dns_cache env with
        | .error e => (m, reg2, .error e)
        | .ok () => (m, reg2, .ok ())

/-- `DnsMonitor::reset`: take the recorded GUID (leaving the slot empty);
if one was recorded, clear both namespaces through `set_dns` with no
servers and flush the cache; otherwise do nothing. -/
def DnsMonitor.reset (env : Env) (m : DnsMonitor) (reg : Registry) :
    DnsMonitor × Registry × Except Error Unit :=
  match m.current_guid with
  | none => (m, reg, .ok ())
  | some guid =>
    let m : DnsMonitor := ⟨none⟩
    match set_dns env reg guid [] with
    | .error e => (m, reg, .error e)
    | .ok reg2 => (m, reg2, flush_dns_cache env)

end WinDns

/-! ## Concrete inputs used by witnesses and counterexamples -/

/-! ## Demo inputs shared by witnesses and counterexamples -/

/-- A loopback IPv4 address, 127.0.0.1. -/
def addrLoop : IpAddr := .V4 ⟨127, 0, 0, 1⟩

/-- A public IPv4 address, 10.0.0.1. -/
def addrPub : IpAddr := .V4 ⟨10, 0, 0, 1⟩

/-- The IPv6 loopback ::1. -/
def addrSix : IpAddr := .V6 ⟨0, 0, 0, 0, 0, 0, 0, 0, 0, 0, 0, 0, 0, 0, 0, 1⟩

/-- A D-Bus oracle on which every call succeeds. -/
def demoBus : Resolved.Bus where
  get_link := fun _ => .ok "/org/freedesktop/resolve1/link/_31"
  set_dns_rpc := fun _ _ => .ok ()
  set_domains_rpc := fun _ _ => .ok ()
  revert_rpc := fun _ => .ok ()

/-- A D-Bus oracle whose Revert call fails with UnknownObject. -/
def goneBus : Resolved.Bus where
  get_link := fun _ => .ok "/org/freedesktop/resolve1/link/_31"
  set_dns_rpc := fun _ _ => .ok ()
  set_domains_rpc := fun _ _ => .ok ()
  revert_rpc := fun _ =>
    .error ⟨some Resolved.unknownObjectName, "unknown object"⟩

/-- The two change-notification entries of the claim's concrete batch: one
well-formed entry with a 4-byte address, one malformed entry with a 5-byte
address. -/
def goodEntry : Resolved.RawEntry := ⟨1, 2, [10, 0, 0, 1]⟩

def badEntry : Resolved.RawEntry := ⟨1, 2, [10, 0, 0, 1, 7]⟩

/-- Modelled from the spec: the claim splits the static file's content
"into whitespace-separated tokens", i.e. Rust `str::split_whitespace`: the
maximal non-empty tokens between whitespace runs. -/
def spec_whitespace_tokens (content : String) : List (List Char) :=
  (splitCharsBy Char.isWhitespace content.data).filter fun t => !t.isEmpty

/-- A filesystem on which `/etc/resolv.conf` is a symlink to the static
stub path and the static stub file contains a non-loopback token followed,
after a newline, by a loopback token. -/
def cexFs : Resolved.FileSys where
  read_link := fun p =>
    if p == "/etc/resolv.conf" then .ok "/usr/lib/systemd/resolv.conf"
    else .error ⟨.other⟩
  read_to_string := fun p =>
    if p == "/usr/lib/systemd/resolv.conf" then .ok "8.8.8.8\n127.0.0.1"
    else .error ⟨.other⟩
  canonicalize := fun _ => .error ⟨.other⟩

/-- A filesystem whose static stub file holds the single token
`127.0.0.53`. -/
def okFs : Resolved.FileSys where
  read_link := fun p =>
    if p == "/etc/resolv.conf" then .ok "/usr/lib/systemd/resolv.conf"
    else .error ⟨.other⟩
  read_to_string := fun p =>
    if p == "/usr/lib/systemd/resolv.conf" then .ok "127.0.0.53"
    else .error ⟨.other⟩
  canonicalize := fun _ => .error ⟨.other⟩

/-- An environment on which only the cache-flush helper lookup fails. -/
def envFlushFail : WinDns.Env where
  luid_from_alias := fun _ => .ok 7
  guid_from_luid := fun _ => .ok "G"
  txn_new := .ok ()
  commit := .ok ()
  rollback := .ok ()
  get_system_dir := .error ⟨.other⟩
  ipconfig_status := .ok 0

/-! ## Concrete environment and registries for the registry-backend
witnesses -/

/-- An environment on which every external call succeeds. -/
def envAllOk : WinDns.Env where
  luid_from_alias := fun _ => .ok 7
  guid_from_luid := fun _ => .ok "G"
  txn_new := .ok ()
  commit := .ok ()
  rollback := .ok ()
  get_system_dir := .ok ()
  ipconfig_status := .ok 0

/-- A registry holding an empty IPv4 interface key for GUID `G` and no IPv6
interface key. -/
def reg0 : WinDns.Registry := [(WinDns.reg_path "Tcpip" "G", ⟨[]⟩)]

/-- `reg0` after `set` with the single server 127.0.0.1. -/
def reg1c : WinDns.Registry :=
  [(WinDns.reg_path "Tcpip" "G",
    ⟨[("EnableMulticast", .dword 0), ("NameServer", .str "127.0.0.1")]⟩)]

/-- `reg1c` after `reset`. -/
def reg2c : WinDns.Registry :=
  [(WinDns.reg_path "Tcpip" "G", ⟨[("EnableMulticast", .dword 0)]⟩)]

/-! ## Basic facts about the order used by `sortIps` -/

theorem ipLe_trans (a b c : IpAddr) :
    IpAddr.ipLe a b → IpAddr.ipLe b c → IpAddr.ipLe a c := by
  simp only [IpAddr.ipLe, decide_eq_true_eq]
  exact Nat.le_trans

theorem ipLe_total (a b : IpAddr) : IpAddr.ipLe a b || IpAddr.ipLe b a := by
  simp only [IpAddr.ipLe, Bool.or_eq_true, decide_eq_true_eq]
  exact Nat.le_total a.key b.key

/-! ## Shared helper lemmas -/

theorem ip_from_bytes_ip_to_bytes (a : IpAddr) :
    ip_from_bytes (ip_to_bytes a) = some a := by
  cases a with
  | V4 v => cases v; rfl
  | V6 v => cases v; rfl

theorem ip_to_bytes_length_v4 (a : Ipv4Addr) :
    (ip_to_bytes (.V4 a)).length = 4 := rfl

theorem ip_to_bytes_length_v6 (a : Ipv6Addr) :
    (ip_to_bytes (.V6 a)).length = 16 := rfl

theorem ip_from_bytes_isSome :
    ∀ bs : List (Fin 256),
      (ip_from_bytes bs).isSome = (bs.length == 4 || bs.length == 16)
  | [] => rfl
  | [_] => rfl
  | [_, _] => rfl
  | [_, _, _] => rfl
  | [_, _, _, _] => rfl
  | [_, _, _, _, _] => rfl
  | [_, _, _, _, _, _] => rfl
  | [_, _, _, _, _, _, _] => rfl
  | [_, _, _, _, _, _, _, _] => rfl
  | [_, _, _, _, _, _, _, _, _] => rfl
  | [_, _, _, _, _, _, _, _, _, _] => rfl
  | [_, _, _, _, _, _, _, _, _, _, _] => rfl
  | [_, _, _, _, _, _, _, _, _, _, _, _] => rfl
  | [_, _, _, _, _, _, _, _, _, _, _, _, _] => rfl
  | [_, _, _, _, _, _, _, _, _, _, _, _, _, _] => rfl
  | [_, _, _, _, _, _, _, _, _, _, _, _, _, _, _] => rfl
  | [_, _, _, _, _, _, _, _, _, _, _, _, _, _, _, _] => rfl
  | _ :: _ :: _ :: _ :: _ :: _ :: _ :: _ :: _ :: _ :: _ :: _ :: _ :: _ :: _ :: _ :: _ :: _ =>
      rfl

/-! ## Claim C9 -/

/-- C9: decoding the bytes produced by encoding an `IpAddr` round-trips,
and the encoding length matches the address family: 4 bytes exactly for
IPv4, 16 bytes exactly for IPv6, so a 4-byte encoding decodes to an IPv4
address and a 16-byte encoding to an IPv6 address. -/
theorem c9_roundtrip (a : IpAddr) :
    ip_from_bytes (ip_to_bytes a) = some a ∧
    ((ip_to_bytes a).length = 4 ↔ a.is_ipv4 = true) ∧
    ((ip_to_bytes a).length = 16 ↔ a.is_ipv6 = true) := by
  refine ⟨ip_from_bytes_ip_to_bytes a, ?_, ?_⟩ <;>
    cases a <;>
      simp [ip_to_bytes, Ipv6Addr.octets, IpAddr.is_ipv4, IpAddr.is_ipv6]

/-! ## Claim C4 -/

/-- C4: the payload handed to the SetDNS RPC by `set_link_dns` keeps the
original input order — decoding the payload entries in order gives back
exactly the input list — and each entry carries the address-family tag with
exactly 4 raw bytes for an IPv4 address and exactly 16 for an IPv6
address. -/
theorem c4_payload (servers : List IpAddr) :
    (Resolved.link_dns_payload servers).map (fun p => ip_from_bytes p.2) =
      servers.map some ∧
    ∀ p ∈ Resolved.link_dns_payload servers,
      (p.1 = AF_INET ∧ p.2.length = 4) ∨ (p.1 = AF_INET6 ∧ p.2.length = 16) := by
  constructor
  · simp only [Resolved.link_dns_payload, List.map_map]
    exact List.map_congr_left fun a _ => ip_from_bytes_ip_to_bytes a
  · intro p hp
    simp only [Resolved.link_dns_payload, List.mem_map] at hp
    obtain ⟨a, -, rfl⟩ := hp
    cases a with
    | V4 v => exact Or.inl ⟨rfl, rfl⟩
    | V6 v => exact Or.inr ⟨rfl, rfl⟩

/-- Witness for C4 at a concrete mixed v4/v6 server list. -/
theorem c4_payload_witness :
    (Resolved.link_dns_payload [addrPub, addrSix]).map (fun p => ip_from_bytes p.2) =
      [addrPub, addrSix].map some ∧
    (((AF_INET6, ip_to_bytes addrSix).1 = AF_INET ∧
        (AF_INET6, ip_to_bytes addrSix).2.length = 4) ∨
      ((AF_INET6, ip_to_bytes addrSix).1 = AF_INET6 ∧
        (AF_INET6, ip_to_bytes addrSix).2.length = 16)) := by
  refine ⟨(c4_payload [addrPub, addrSix]).1, ?_⟩
  exact (c4_payload [addrPub, addrSix]).2 (AF_INET6, ip_to_bytes addrSix) (by decide)

/-! ## Claim C5 -/

/-- C5: `revert_link` treats an UnknownObject failure of the Revert RPC as
success, and returns every other RPC failure unchanged, as the raw
transport error. -/
theorem c5_revert (bus : Resolved.Bus) (st : Resolved.DnsState) (e : Resolved.DbusError)
    (h : bus.revert_rpc st.interface_path = .error e) :
    (e.name = some Resolved.unknownObjectName →
       Resolved.revert_link bus st = .ok ()) ∧
    (e.name ≠ some Resolved.unknownObjectName →
       Resolved.revert_link bus st = .error e) := by
  unfold Resolved.revert_link
  rw [h]
  constructor
  · intro hn
    simp [hn]
  · intro hn
    simp only [beq_iff_eq]
    rw [if_neg hn]

/-- Witness for C5: the Revert RPC failed with UnknownObject on the
vanished link, yet `revert_link` succeeds. -/
theorem c5_revert_witness :
    Resolved.revert_link goneBus ⟨"/org/freedesktop/resolve1/link/_31", 1, []⟩ = .ok () :=
  (c5_revert goneBus ⟨"/org/freedesktop/resolve1/link/_31", 1, []⟩
      ⟨some Resolved.unknownObjectName, "unknown object"⟩ rfl).1 rfl

/-! ## Claim C8 -/

/-- C8: decoding a change-notification batch drops exactly the entries
whose raw address length is neither 4 nor 16, each dropped individually
without failing the batch; in particular the batch of one well-formed
4-byte entry and one malformed 5-byte entry decodes to exactly one
`DnsServer`. -/
theorem c8_batch_decode (entries : List Resolved.RawEntry) :
    (Resolved.DnsServer.server_list_from_refarg entries).length =
      (entries.filter fun e =>
        e.address_bytes.length == 4 || e.address_bytes.length == 16).length ∧
    Resolved.DnsServer.server_list_from_refarg [goodEntry, badEntry] =
      [⟨1, 2, addrPub⟩] := by
  constructor
  · induction entries with
    | nil => rfl
    | cons e rest ih =>
      simp only [Resolved.DnsServer.server_list_from_refarg, List.filterMap_cons,
        List.filter_cons] at *
      have hs := ip_from_bytes_isSome e.address_bytes
      cases hb : ip_from_bytes e.address_bytes with
      | none =>
        rw [hb] at hs
        simp only [Option.isSome_none] at hs
        simp [Resolved.DnsServer.from_refarg, hb, ← hs, ih]
      | some a =>
        rw [hb] at hs
        simp only [Option.isSome_some] at hs
        simp [Resolved.DnsServer.from_refarg, hb, ← hs, ih]
  · rfl

/-! ## Claim C1 -/

/-- C1: the claim as written fails: `set_dns` sorts the retained server
list but does not de-duplicate it. Feeding the same address twice yields a
`DnsState` whose `set_servers` still contains it twice. -/
theorem c1_counterexample :
    (Resolved.set_dns demoBus 1 [addrLoop, addrLoop]).toOption.map
        Resolved.DnsState.set_servers = some [addrLoop, addrLoop] ∧
    ¬ List.Nodup [addrLoop, addrLoop] := by
  have hsort : sortIps [addrLoop, addrLoop] = [addrLoop, addrLoop] :=
    List.mergeSort_of_sorted (by decide)
  have h1 : Resolved.set_dns demoBus 1 [addrLoop, addrLoop] =
      .ok ⟨"/org/freedesktop/resolve1/link/_31", 1, sortIps [addrLoop, addrLoop]⟩ := rfl
  rw [h1]
  refine ⟨?_, by decide⟩
  show some (sortIps [addrLoop, addrLoop]) = some [addrLoop, addrLoop]
  rw [hsort]

/-- C1 amended: the `set_servers` field of the `DnsState` returned by a
successful `set_dns` is the input server list stably sorted by the address
order — a permutation of the input, pairwise ordered — with duplicates
preserved (no de-duplication is performed). -/
theorem c1_amended (bus : Resolved.Bus) (idx : Nat) (servers : List IpAddr)
    (st : Resolved.DnsState) (h : Resolved.set_dns bus idx servers = .ok st) :
    st.set_servers = sortIps servers ∧
    st.set_servers.Perm servers ∧
    st.set_servers.Pairwise (fun a b => IpAddr.ipLe a b = true) := by
  unfold Resolved.set_dns at h
  cases hfl : Resolved.fetch_link bus idx with
  | error e =>
    simp only [hfl] at h
    exact Except.noConfusion h
  | ok path =>
    simp only [hfl] at h
    cases hsl : Resolved.set_link_dns bus path servers with
    | error e =>
      simp only [hsl] at h
      exact Except.noConfusion h
    | ok u =>
      simp only [hsl] at h
      cases h
      refine ⟨rfl, List.mergeSort_perm servers IpAddr.ipLe, ?_⟩
      exact List.sorted_mergeSort
        (fun a b c => ipLe_trans a b c)
        (fun a b => ipLe_total a b) servers

/-- Witness for C1 amended: a concrete successful `set_dns` whose retained
list is the sorted input, the v6 address moved after the v4 address. -/
theorem c1_amended_witness :
    (⟨"/org/freedesktop/resolve1/link/_31", 1, sortIps [addrSix, addrPub]⟩ :
        Resolved.DnsState).set_servers = sortIps [addrSix, addrPub] ∧
    List.Perm (⟨"/org/freedesktop/resolve1/link/_31", 1, sortIps [addrSix, addrPub]⟩ :
        Resolved.DnsState).set_servers [addrSix, addrPub] ∧
    List.Pairwise (fun a b => IpAddr.ipLe a b = true)
      (⟨"/org/freedesktop/resolve1/link/_31", 1, sortIps [addrSix, addrPub]⟩ :
        Resolved.DnsState).set_servers :=
  c1_amended demoBus 1 [addrSix, addrPub] _ rfl

/-! ## Claim C3 -/

/-- An absolute path that is not a stub candidate is never accepted by
`path_is_resolvconf_stub`, whatever the filesystem says. -/
theorem path_is_resolvconf_stub_static (fs : Resolved.FileSys) :
    Resolved.path_is_resolvconf_stub fs Resolved.STATIC_STUB_PATH = false := rfl

/-- Evaluation of the static-stub check at the static stub path with known
file content. -/
theorem resolv_conf_is_static_stub_eval (fs : Resolved.FileSys) (content : String)
    (h2 : fs.read_to_string Resolved.STATIC_STUB_PATH = .ok content) :
    Resolved.resolv_conf_is_static_stub fs Resolved.STATIC_STUB_PATH =
      (if ((splitCharsBy (fun c => c == ' ') (rustTrim content.data)).map
          Resolved.token_is_loopback).any id then
        .ok true
      else .error .StaticStubNotPointingToLocalhost) := by
  unfold Resolved.resolv_conf_is_static_stub
  simp only [beq_self_eq_true, if_true, h2]

/-- C3 amended: when `/etc/resolv.conf` is a symlink whose target equals
the canonical static-stub path, the preflight check accepts iff the static
file's trimmed content, split at each space character (not at arbitrary
whitespace), has at least one token parsing as a loopback IP address; if no
such token exists the check fails with the untrusted-static-stub error. -/
theorem c3_amended (fs : Resolved.FileSys) (content : String)
    (h1 : fs.read_link Resolved.RESOLV_CONF_PATH = .ok Resolved.STATIC_STUB_PATH)
    (h2 : fs.read_to_string Resolved.STATIC_STUB_PATH = .ok content) :
    (Resolved.ensure_resolv_conf_is_resolved_symlink fs = .ok () ↔
      ((splitCharsBy (fun c => c == ' ') (rustTrim content.data)).map
        Resolved.token_is_loopback).any id = true) ∧
    (((splitCharsBy (fun c => c == ' ') (rustTrim content.data)).map
        Resolved.token_is_loopback).any id = false →
      Resolved.ensure_resolv_conf_is_resolved_symlink fs =
        .error .StaticStubNotPointingToLocalhost) := by
  have hpre : Resolved.ensure_resolv_conf_is_resolved_symlink fs =
      (if ((splitCharsBy (fun c => c == ' ') (rustTrim content.data)).map
          Resolved.token_is_loopback).any id then
        .ok ()
      else .error .StaticStubNotPointingToLocalhost) := by
    unfold Resolved.ensure_resolv_conf_is_resolved_symlink
    simp only [h1, path_is_resolvconf_stub_static fs, Bool.false_eq_true,
      if_false, resolv_conf_is_static_stub_eval fs content h2]
    cases hb : ((splitCharsBy (fun c => c == ' ') (rustTrim content.data)).map
        Resolved.token_is_loopback).any id <;>
      simp
  rw [hpre]
  cases hb : ((splitCharsBy (fun c => c == ' ') (rustTrim content.data)).map
      Resolved.token_is_loopback).any id <;>
    simp

/-- C3: the claim as written fails: with static-stub content
`"8.8.8.8\n127.0.0.1"` the whitespace-separated tokens do contain a
loopback address, yet the preflight check rejects with the
untrusted-static-stub error, because the code splits at space characters
only and the single space-separated token does not parse. -/
theorem c3_counterexample :
    Resolved.ensure_resolv_conf_is_resolved_symlink cexFs =
      .error .StaticStubNotPointingToLocalhost ∧
    (spec_whitespace_tokens "8.8.8.8\n127.0.0.1").any Resolved.token_is_loopback
      = true := by
  constructor
  · decide
  · decide

/-- Witness for C3 amended: content `127.0.0.53` is accepted. -/
theorem c3_amended_witness :
    Resolved.ensure_resolv_conf_is_resolved_symlink okFs = .ok () :=
  (c3_amended okFs "127.0.0.53" rfl rfl).1.mpr (by decide)

/-! ## Registry lookup/update lemmas -/

namespace WinDns

theorem find_filter_ne {α : Type} (l : List (String × α)) (n n' : String)
    (h : n' ≠ n) :
    (l.filter fun kv => !(kv.1 == n)).find? (fun kv => kv.1 == n') =
      l.find? (fun kv => kv.1 == n') := by
  induction l with
  | nil => rfl
  | cons kv rest ih =>
    cases hn : (kv.1 == n) with
    | true =>
      have hkvn : kv.1 = n := by simpa using hn
      have hn' : (kv.1 == n') = false := by
        rw [beq_eq_false_iff_ne]
        intro hc
        exact h (hc.symm.trans hkvn)
      simp [List.filter_cons, hn, List.find?_cons, hn', ih]
    | false =>
      cases hn' : (kv.1 == n') with
      | true => simp [List.filter_cons, hn, List.find?_cons, hn']
      | false => simp [List.filter_cons, hn, List.find?_cons, hn', ih]

theorem keyValue_keySetValue_self (k : RegKeyState) (n : String) (v : RegValue) :
    keyValue (keySetValue k n v) n = some v := by
  simp [keyValue, keySetValue, List.find?_cons]

theorem keyValue_keySetValue_ne (k : RegKeyState) (n n' : String) (v : RegValue)
    (h : n' ≠ n) :
    keyValue (keySetValue k n v) n' = keyValue k n' := by
  have hnn : (n == n') = false := by
    simp
    exact fun hc => h hc.symm
  simp [keyValue, keySetValue, List.find?_cons, hnn, find_filter_ne _ _ _ h]

theorem keyValue_keyDelValue_self (k : RegKeyState) (n : String) :
    keyValue (keyDelValue k n) n = none := by
  simp only [keyValue, keyDelValue]
  rw [List.find?_eq_none.mpr]
  · rfl
  · intro kv hkv
    have := List.of_mem_filter hkv
    simpa using this

theorem regLookup_regSet_self (reg : Registry) (p : String) (k : RegKeyState) :
    regLookup (regSet reg p k) p = some k := by
  induction reg with
  | nil => simp [regSet, regLookup, List.find?_cons]
  | cons kv rest ih =>
    cases hp : (kv.1 == p) with
    | true => simp [regSet, hp, regLookup, List.find?_cons]
    | false =>
      have h1 : regSet (kv :: rest) p k = kv :: regSet rest p k := by
        simp [regSet, hp]
      have h2 : regLookup (kv :: regSet rest p k) p =
          regLookup (regSet rest p k) p := by
        simp [regLookup, List.find?_cons, hp]
      rw [h1, h2]
      exact ih

theorem regLookup_regSet_ne (reg : Registry) (p p' : String) (k : RegKeyState)
    (h : p' ≠ p) :
    regLookup (regSet reg p k) p' = regLookup reg p' := by
  have hpp : (p == p') = false := by
    rw [beq_eq_false_iff_ne]
    exact fun hc => h hc.symm
  induction reg with
  | nil => simp [regSet, regLookup, List.find?_cons, hpp]
  | cons kv rest ih =>
    cases hp : (kv.1 == p) with
    | true =>
      have hkvp : kv.1 = p := by simpa using hp
      have hkv' : (kv.1 == p') = false := by
        rw [beq_eq_false_iff_ne]
        intro hc
        exact h (hc.symm.trans hkvp)
      simp [regSet, hp, regLookup, List.find?_cons, hpp, hkv']
    | false =>
      have h1 : regSet (kv :: rest) p k = kv :: regSet rest p k := by
        simp [regSet, hp]
      cases hkv : (kv.1 == p') with
      | true => simp [h1, regLookup, List.find?_cons, hkv]
      | false =>
        have h2 : regLookup (kv :: regSet rest p k) p' =
            regLookup (regSet rest p k) p' := by
          simp [regLookup, List.find?_cons, hkv]
        have h3 : regLookup (kv :: rest) p' = regLookup rest p' := by
          simp [regLookup, List.find?_cons, hkv]
        rw [h1, h2, h3]
        exact ih

theorem reg_path_ne (g : String) : reg_path "Tcpip" g ≠ reg_path "Tcpip6" g := by
  intro h
  have h' := congrArg String.length h
  simp only [reg_path, String.length_append] at h'
  have e1 : ("SYSTEM\\CurrentControlSet\\Services\\" : String).length = 34 := rfl
  have e2 : ("\\Parameters\\Interfaces\\" : String).length = 23 := rfl
  have e3 : ("Tcpip" : String).length = 5 := rfl
  have e4 : ("Tcpip6" : String).length = 6 := rfl
  rw [e1, e2, e3, e4] at h'
  omega

end WinDns

/-! ## Claim C10 -/

/-- C10: `reset` takes the recorded interface out of the tracked slot
before doing anything else, so the monitor that comes out of any `reset`
call — succeeding or failing — has no tracked interface; and a `reset`
from the cleared state returns success and leaves the registry untouched
under every environment, attempting neither the registry cleanup nor the
cache flush. -/
theorem c10_reset_clears_first (env : WinDns.Env) (m : WinDns.DnsMonitor)
    (reg : WinDns.Registry) :
    (WinDns.DnsMonitor.reset env m reg).1.current_guid = none ∧
    (∀ env3 : WinDns.Env, ∀ reg' : WinDns.Registry,
      WinDns.DnsMonitor.reset env3 ⟨none⟩ reg' = (⟨none⟩, reg', .ok ())) := by
  constructor
  · cases m with
    | mk cg =>
      cases cg with
      | none => rfl
      | some guid =>
        unfold WinDns.DnsMonitor.reset
        cases hsd : WinDns.set_dns env reg guid [] with
        | error e => simp [hsd]
        | ok r => simp [hsd]
  · intro env3 reg'
    rfl

/-! ## Claim C2 -/

/-- C2: the claim as written fails: `set` records the resolved interface
as current and only then flushes the resolver cache, so when the flush
invocation fails, `set` returns an error yet the tracked interface has
already changed from `none` to the new interface. -/
theorem c2_counterexample :
    WinDns.DnsMonitor.set envFlushFail ⟨none⟩ ([] : WinDns.Registry) "eth0" [] =
      (⟨some "G"⟩, ([] : WinDns.Registry),
        .error (.SystemDirError ⟨.other⟩)) ∧
    (⟨none⟩ : WinDns.DnsMonitor) ≠ ⟨some "G"⟩ := by
  constructor
  · rfl
  · decide

/-- C2 amended: `set` records the resolved interface identifier as current
immediately before — not after — the cache flush. Consequently, when `set`
fails during alias resolution, GUID resolution or the registry transaction,
the tracked interface is unchanged; but when everything up to the cache
flush succeeded and the flush invocation fails, `set` returns that error
with the tracked interface already updated to the newly resolved one. -/
theorem c2_amended (env : WinDns.Env) (m : WinDns.DnsMonitor)
    (reg : WinDns.Registry) (interface : String) (servers : List IpAddr) :
    (∀ e, env.luid_from_alias interface = .error e →
      WinDns.DnsMonitor.set env m reg interface servers =
        (m, reg, .error (.InterfaceLuidError e))) ∧
    (∀ luid e, env.luid_from_alias interface = .ok luid →
      env.guid_from_luid luid = .error e →
      WinDns.DnsMonitor.set env m reg interface servers =
        (m, reg, .error (.InterfaceGuidError e))) ∧
    (∀ luid guid e, env.luid_from_alias interface = .ok luid →
      env.guid_from_luid luid = .ok guid →
      WinDns.set_dns env reg guid servers = .error e →
      WinDns.DnsMonitor.set env m reg interface servers = (m, reg, .error e)) ∧
    (∀ luid guid reg2 e, env.luid_from_alias interface = .ok luid →
      env.guid_from_luid luid = .ok guid →
      WinDns.set_dns env reg guid servers = .ok reg2 →
      WinDns.flush_dns_cache env = .error e →
      WinDns.DnsMonitor.set env m reg interface servers =
        (⟨some guid⟩, reg2, .error e)) ∧
    (∀ luid guid reg2, env.luid_from_alias interface = .ok luid →
      env.guid_from_luid luid = .ok guid →
      WinDns.set_dns env reg guid servers = .ok reg2 →
      WinDns.flush_dns_cache env = .ok () →
      WinDns.DnsMonitor.set env m reg interface servers =
        (⟨some guid⟩, reg2, .ok ())) := by
  refine ⟨?_, ?_, ?_, ?_, ?_⟩
  · intro e h1
    unfold WinDns.DnsMonitor.set
    simp only [h1]
  · intro luid e h1 h2
    unfold WinDns.DnsMonitor.set
    simp only [h1, h2]
  · intro luid guid e h1 h2 h3
    unfold WinDns.DnsMonitor.set
    simp only [h1, h2, h3]
  · intro luid guid reg2 e h1 h2 h3 h4
    unfold WinDns.DnsMonitor.set
    simp only [h1, h2, h3, h4]
  · intro luid guid reg2 h1 h2 h3 h4
    unfold WinDns.DnsMonitor.set
    simp only [h1, h2, h3, h4]

/-- Witness for C2 amended: the flush-failure conjunct at a concrete
environment, registry and monitor. -/
theorem c2_amended_witness :
    WinDns.DnsMonitor.set envFlushFail ⟨none⟩ ([] : WinDns.Registry) "eth0" [] =
      (⟨some "G"⟩, ([] : WinDns.Registry),
        .error (.SystemDirError ⟨.other⟩)) :=
  (c2_amended envFlushFail ⟨none⟩ ([] : WinDns.Registry) "eth0" []).2.2.2.1
    7 "G" ([] : WinDns.Registry) (.SystemDirError ⟨.other⟩) rfl rfl rfl rfl

/-! ## config_interface evaluation lemmas -/

namespace WinDns

theorem keyValue_keyDelValue_ne (k : RegKeyState) (n n' : String) (h : n' ≠ n) :
    keyValue (keyDelValue k n) n' = keyValue k n' := by
  simp only [keyValue, keyDelValue]
  rw [find_filter_ne _ _ _ h]

theorem config_interface_eval_some (reg : Registry) (guid service : String)
    (ns : List IpAddr) (key : RegKeyState)
    (hk : regLookup reg (reg_path service guid) = some key) :
    config_interface reg guid service ns =
      .ok (regSet reg (reg_path service guid)
        (keySetValue
          (if !(ns.map IpAddr.display).isEmpty then
            keySetValue key "NameServer"
              (.str (String.intercalate "," (ns.map IpAddr.display)))
          else keyDelValue key "NameServer")
          "EnableMulticast" (.dword 0))) := by
  unfold config_interface
  simp only [hk]

theorem config_interface_none (reg : Registry) (guid service : String)
    (hk : regLookup reg (reg_path service guid) = none) :
    config_interface reg guid service [] = .ok reg ∧
    ∀ ns : List IpAddr, ns ≠ [] →
      config_interface reg guid service ns = .error ⟨.notFound⟩ := by
  constructor
  · unfold config_interface
    simp [hk]
  · intro ns hne
    unfold config_interface
    simp only [hk]
    cases ns with
    | nil => exact absurd rfl hne
    | cons a rest => simp

theorem config_interface_empty_clears (reg : Registry) (guid service : String) :
    ∃ reg1, config_interface reg guid service [] = .ok reg1 ∧
      regValue reg1 (reg_path service guid) "NameServer" = none ∧
      ∀ p, p ≠ reg_path service guid → regLookup reg1 p = regLookup reg p := by
  cases hk : regLookup reg (reg_path service guid) with
  | none =>
    refine ⟨reg, (config_interface_none reg guid service hk).1, ?_, fun p hp => rfl⟩
    simp [regValue, hk]
  | some key =>
    refine ⟨regSet reg (reg_path service guid)
        (keySetValue (keyDelValue key "NameServer") "EnableMulticast" (.dword 0)),
      ?_, ?_, ?_⟩
    · rw [config_interface_eval_some reg guid service [] key hk]
      rfl
    · simp only [regValue, regLookup_regSet_self, Option.some_bind]
      rw [keyValue_keySetValue_ne _ _ _ _
        (by decide : "NameServer" ≠ "EnableMulticast")]
      exact keyValue_keyDelValue_self key "NameServer"
    · intro p hp
      exact regLookup_regSet_ne _ _ _ _ hp

theorem set_dns_inner_empty (reg : Registry) (guid : String) :
    ∃ reg2, set_dns_inner reg guid [] = .ok reg2 ∧
      regValue reg2 (reg_path "Tcpip" guid) "NameServer" = none ∧
      regValue reg2 (reg_path "Tcpip6" guid) "NameServer" = none := by
  obtain ⟨r1, h1, hNS1, hpres1⟩ := config_interface_empty_clears reg guid "Tcpip"
  obtain ⟨r2, h2, hNS2, hpres2⟩ := config_interface_empty_clears r1 guid "Tcpip6"
  refine ⟨r2, ?_, ?_, hNS2⟩
  · unfold set_dns_inner
    simp only [List.filter_nil, h1, h2]
  · have hlk := hpres2 (reg_path "Tcpip" guid) (reg_path_ne guid)
    simp only [regValue, hlk]
    simpa [regValue] using hNS1

end WinDns

/-! ## Claim C6 -/

/-- C6: with a non-empty, IPv4-only server list, a successful registry
update writes the comma-joined list in original order as NameServer under
the IPv4 (Tcpip) namespace key, and writes no NameServer value under the
IPv6 (Tcpip6) namespace key (one previously absent stays absent); and on a
missing configuration key, an empty family partition is success while a
non-empty one is a hard NotFound failure. -/
theorem c6_v4_only (env : WinDns.Env) (reg : WinDns.Registry) (guid : String)
    (servers : List IpAddr) (hne : servers ≠ [])
    (h4 : ∀ a ∈ servers, IpAddr.is_ipv4 a = true) :
    (∀ reg2, WinDns.set_dns env reg guid servers = .ok reg2 →
      WinDns.regValue reg2 (WinDns.reg_path "Tcpip" guid) "NameServer" =
        some (.str (String.intercalate "," (servers.map IpAddr.display))) ∧
      (WinDns.regValue reg (WinDns.reg_path "Tcpip6" guid) "NameServer" = none →
       WinDns.regValue reg2 (WinDns.reg_path "Tcpip6" guid) "NameServer" = none)) ∧
    (∀ service,
      WinDns.regLookup reg (WinDns.reg_path service guid) = none →
      WinDns.config_interface reg guid service [] = .ok reg ∧
      ∀ ns : List IpAddr, ns ≠ [] →
        WinDns.config_interface reg guid service ns = .error ⟨.notFound⟩) := by
  constructor
  · intro reg2 hok
    have hf4 : servers.filter IpAddr.is_ipv4 = servers :=
      List.filter_eq_self.mpr h4
    have hf6 : servers.filter IpAddr.is_ipv6 = [] := by
      rw [List.filter_eq_nil_iff]
      intro a ha
      have h' := h4 a ha
      cases a with
      | V4 v => simp [IpAddr.is_ipv6]
      | V6 v => simp [IpAddr.is_ipv4] at h'
    have hnsne : ((servers.map IpAddr.display).isEmpty) = false := by
      cases servers with
      | nil => exact absurd rfl hne
      | cons a rest => rfl
    unfold WinDns.set_dns at hok
    cases htxn : env.txn_new with
    | error e => simp [htxn] at hok
    | ok u =>
      cases u
      simp only [htxn] at hok
      cases hinner : WinDns.set_dns_inner reg guid servers with
      | error e =>
        simp only [hinner] at hok
        cases hrb : env.rollback with
        | ok u3 => cases u3; simp [hrb] at hok
        | error e2 => simp [hrb] at hok
      | ok regi =>
        simp only [hinner] at hok
        cases hcom : env.commit with
        | error e => simp [hcom] at hok
        | ok u2 =>
          cases u2
          simp only [hcom] at hok
          cases hok
          unfold WinDns.set_dns_inner at hinner
          rw [hf4, hf6] at hinner
          cases hkT : WinDns.regLookup reg (WinDns.reg_path "Tcpip" guid) with
          | none =>
            rw [(WinDns.config_interface_none reg guid "Tcpip" hkT).2 servers hne]
              at hinner
            exact Except.noConfusion hinner
          | some keyT =>
            rw [WinDns.config_interface_eval_some reg guid "Tcpip" servers keyT hkT,
              hnsne] at hinner
            simp only [Bool.not_false, if_true] at hinner
            cases hkT6 : WinDns.regLookup
                (WinDns.regSet reg (WinDns.reg_path "Tcpip" guid)
                  (WinDns.keySetValue
                    (WinDns.keySetValue keyT "NameServer"
                      (.str (String.intercalate "," (servers.map IpAddr.display))))
                    "EnableMulticast" (.dword 0)))
                (WinDns.reg_path "Tcpip6" guid) with
            | none =>
              rw [(WinDns.config_interface_none _ guid "Tcpip6" hkT6).1] at hinner
              cases hinner
              constructor
              · simp only [WinDns.regValue, WinDns.regLookup_regSet_self,
                  Option.some_bind]
                rw [WinDns.keyValue_keySetValue_ne _ _ _ _
                  (by decide : "NameServer" ≠ "EnableMulticast")]
                exact WinDns.keyValue_keySetValue_self _ _ _
              · intro hpre
                have hkT6' : WinDns.regLookup reg (WinDns.reg_path "Tcpip6" guid)
                    = none := by
                  rwa [WinDns.regLookup_regSet_ne _ _ _ _
                    (Ne.symm (WinDns.reg_path_ne guid))] at hkT6
                simp only [WinDns.regValue]
                rw [WinDns.regLookup_regSet_ne _ _ _ _
                  (Ne.symm (WinDns.reg_path_ne guid)), hkT6']
                rfl
            | some keyT6 =>
              rw [WinDns.config_interface_eval_some _ guid "Tcpip6" [] keyT6 hkT6]
                at hinner
              cases hinner
              constructor
              · rw [WinDns.regValue,
                  WinDns.regLookup_regSet_ne _ _ _ _ (WinDns.reg_path_ne guid)]
                simp only [WinDns.regLookup_regSet_self, Option.some_bind]
                rw [WinDns.keyValue_keySetValue_ne _ _ _ _
                  (by decide : "NameServer" ≠ "EnableMulticast")]
                exact WinDns.keyValue_keySetValue_self _ _ _
              · intro hpre
                simp only [WinDns.regValue, WinDns.regLookup_regSet_self,
                  Option.some_bind, List.map_nil, List.isEmpty_nil, Bool.not_true,
                  Bool.false_eq_true, if_false]
                rw [WinDns.keyValue_keySetValue_ne _ _ _ _
                  (by decide : "NameServer" ≠ "EnableMulticast")]
                exact WinDns.keyValue_keyDelValue_self keyT6 "NameServer"
  · intro service hk
    exact WinDns.config_interface_none reg guid service hk

/-- Witness for C6 at a concrete environment, registry and server list. -/
theorem c6_v4_only_witness :
    WinDns.regValue reg1c (WinDns.reg_path "Tcpip" "G") "NameServer" =
      some (.str (String.intercalate "," ([addrLoop].map IpAddr.display))) ∧
    (WinDns.regValue reg0 (WinDns.reg_path "Tcpip6" "G") "NameServer" = none →
     WinDns.regValue reg1c (WinDns.reg_path "Tcpip6" "G") "NameServer" = none) :=
  (c6_v4_only envAllOk reg0 "G" [addrLoop] (by decide) (by decide)).1
    reg1c (by decide)

/-! ## Claim C7 -/

/-- C7: after a successful `set`, a `reset` (under an environment whose
transaction, commit and flush succeed) leaves no NameServer value in either
protocol namespace of the interface that `set` had recorded, clears the
tracked interface, and returns success; a second `reset` right after is a
no-op returning success under any environment, touching neither the
registry nor the flush helper. -/
theorem c7_reset_after_set (env env2 : WinDns.Env) (m : WinDns.DnsMonitor)
    (reg : WinDns.Registry) (interface : String) (servers : List IpAddr)
    (m1 : WinDns.DnsMonitor) (reg1 : WinDns.Registry)
    (m2 : WinDns.DnsMonitor) (reg2 : WinDns.Registry)
    (res2 : Except WinDns.Error Unit) (status : Int)
    (hset : WinDns.DnsMonitor.set env m reg interface servers =
      (m1, reg1, .ok ()))
    (htxn : env2.txn_new = .ok ()) (hcommit : env2.commit = .ok ())
    (hsys : env2.get_system_dir = .ok ())
    (hipc : env2.ipconfig_status = .ok status)
    (hreset : WinDns.DnsMonitor.reset env2 m1 reg1 = (m2, reg2, res2)) :
    m2.current_guid = none ∧ res2 = .ok () ∧
    (∃ guid, m1.current_guid = some guid ∧
      WinDns.regValue reg2 (WinDns.reg_path "Tcpip" guid) "NameServer" = none ∧
      WinDns.regValue reg2 (WinDns.reg_path "Tcpip6" guid) "NameServer" = none) ∧
    (∀ env3 : WinDns.Env,
      WinDns.DnsMonitor.reset env3 m2 reg2 = (m2, reg2, .ok ())) := by
  have hm1 : ∃ guid, m1.current_guid = some guid := by
    unfold WinDns.DnsMonitor.set at hset
    cases h1 : env.luid_from_alias interface with
    | error e => simp [h1] at hset
    | ok luid =>
      cases h2 : env.guid_from_luid luid with
      | error e => simp [h1, h2] at hset
      | ok guid =>
        cases h3 : WinDns.set_dns env reg guid servers with
        | error e =>
          simp only [h1, h2, h3] at hset
          simp at hset
        | ok regx =>
          cases h4 : WinDns.flush_dns_cache env with
          | error e =>
            simp only [h1, h2, h3, h4] at hset
            simp at hset
          | ok u =>
            cases u
            simp only [h1, h2, h3, h4, Prod.mk.injEq] at hset
            exact ⟨guid, by rw [← hset.1]⟩
  obtain ⟨guid, hguid⟩ := hm1
  have hflush2 : WinDns.flush_dns_cache env2 = .ok () := by
    unfold WinDns.flush_dns_cache
    simp [hsys, hipc]
  obtain ⟨regE, hinner, hT, hT6⟩ := WinDns.set_dns_inner_empty reg1 guid
  have hsd2 : WinDns.set_dns env2 reg1 guid [] = .ok regE := by
    unfold WinDns.set_dns
    simp [htxn, hinner, hcommit]
  have hrr : WinDns.DnsMonitor.reset env2 m1 reg1 =
      (⟨none⟩, regE, .ok ()) := by
    unfold WinDns.DnsMonitor.reset
    cases m1 with
    | mk cg =>
      simp only at hguid
      subst hguid
      simp [hsd2, hflush2]
  rw [hrr] at hreset
  have h1 : m2 = ⟨none⟩ := by
    have := congrArg Prod.fst hreset
    exact this.symm
  have h2 : reg2 = regE := by
    have := congrArg (fun t => t.2.1) hreset
    exact this.symm
  have h3 : res2 = .ok () := by
    have := congrArg (fun t => t.2.2) hreset
    exact this.symm
  subst h1 h2 h3
  exact ⟨rfl, rfl, ⟨guid, hguid, hT, hT6⟩, fun env3 => rfl⟩

/-- Witness for C7: the concrete set-then-reset run. -/
theorem c7_reset_after_set_witness :
    (⟨none⟩ : WinDns.DnsMonitor).current_guid = none ∧
    (Except.ok () : Except WinDns.Error Unit) = .ok () ∧
    (∃ guid, (⟨some "G"⟩ : WinDns.DnsMonitor).current_guid = some guid ∧
      WinDns.regValue reg2c (WinDns.reg_path "Tcpip" guid) "NameServer" = none ∧
      WinDns.regValue reg2c (WinDns.reg_path "Tcpip6" guid) "NameServer" = none) ∧
    (∀ env3 : WinDns.Env,
      WinDns.DnsMonitor.reset env3 ⟨none⟩ reg2c = (⟨none⟩, reg2c, .ok ())) :=
  c7_reset_after_set envAllOk envAllOk ⟨none⟩ reg0 "eth0" [addrLoop]
    ⟨some "G"⟩ reg1c ⟨none⟩ reg2c (.ok ()) 0
    (by decide) rfl rfl rfl rfl (by decide)
